import Mathlib

/-!
Verification of the conversational-banking orchestrator
(`backend/orchestrator.py`) against its natural-language specification.

The Python module is shallowly embedded below.  Python dictionaries are
modelled by structures with `Option` fields (a `none` field stands for a
missing key or a JSON `null`); Python truthiness of each field type is
modelled by explicit `truthy*` helpers; Python floats occurring in the
orchestrator (amounts, balances) are modelled by exact rationals; the
non-deterministic pieces (the `random` module, the LLM responses, the
current date) are threaded as explicit oracle parameters.
-/

namespace ConvBank

/-- Python truthiness of an optional integer field (`None` and `0` are falsy). -/
def truthyNat : Option Nat → Bool
  | none => false
  | some n => n != 0

/-- Python truthiness of an optional `int` field holding a signed value. -/
def truthyInt : Option Int → Bool
  | none => false
  | some n => n != 0

/-- Python truthiness of an optional string field (`None` and `""` are falsy). -/
def truthyStr : Option String → Bool
  | none => false
  | some s => s != ""

/-- Python truthiness of an optional numeric (float) field. -/
def truthyQ : Option ℚ → Bool
  | none => false
  | some q => q != 0

/-- Python `int()` applied to a float: truncation toward zero. -/
def truncToInt (q : ℚ) : Int :=
  if 0 ≤ q then q.floor else q.ceil

/-- One account from the caller-supplied session snapshot
(`session_context["accounts"]`, produced by `main.py`). -/
structure Account where
  id : Nat
  type : String
  account_name : Option String
  balance : ℚ
  currency : String
  deriving DecidableEq

/-- One collected check of the CHECK_DEPOSIT sub-dialogue
(the dicts appended to `_check_collection_state["checks"]`). -/
structure Check where
  check_number : String
  check_date : String
  payer_name : String
  amount : ℚ
  deriving DecidableEq

/-- `_check_collection_state`: `num_checks` plus the ordered collected checks. -/
structure CheckState where
  num_checks : Option Int
  checks : List Check
  deriving DecidableEq

/-- The default empty collection state (`intent.get("_check_collection_state", {})`). -/
def CheckState.empty : CheckState := ⟨none, []⟩

/-- The intent dictionary produced by the LLM extraction layer and mutated by
`process_conversation`.  A `none` field is a missing key or JSON `null`. -/
structure Intent where
  operation : Option String := none
  account_id : Option Nat := none
  source_account_id : Option Nat := none
  destination_account_id : Option Nat := none
  from_account_id : Option Nat := none
  to_account_id : Option Nat := none
  account_type : Option String := none
  source_account_type : Option String := none
  destination_account_type : Option String := none
  amount : Option ℚ := none
  is_external : Option Bool := none
  check_state : Option CheckState := none
  deriving DecidableEq

/-- `OllamaOrchestrator.validate_intent` (orchestrator.py lines 85-126),
transcribed clause-by-clause.  Note the TRANSFER arm is `pass` in the
source: it appends no error whatsoever. -/
def validate_intent (intent : Intent) : List String :=
  match intent.operation with
  | some "BALANCE_INQUIRY" =>
      if ¬ truthyNat intent.account_id ∧ ¬ truthyStr intent.account_type then
        ["account_id or account_type is required"]
      else []
  | some "WITHDRAW" =>
      (if ¬ truthyNat intent.account_id then ["account_id is required"] else []) ++
      (if intent.amount = none ∨ intent.amount = some 0 then ["amount is required"] else [])
  | some "CASH_DEPOSIT" =>
      if ¬ truthyNat intent.account_id then ["account_id is required"] else []
  | some "CHECK_DEPOSIT" =>
      if ¬ truthyNat intent.account_id then ["account_id is required"] else []
  | some "TRANSFER" => []
  | some "CHANGE_PIN" =>
      if ¬ truthyNat intent.account_id then ["account_id (or card id) is required"] else []
  | some "DEPOSIT" => ["operation not yet implemented"]
  | some "PAYMENT" => ["operation not yet implemented"]
  | _ => ["unknown operation"]

/-- Result record of `simulate_bill_breakdown`. -/
structure BillResult where
  bills_100 : Nat
  bills_50 : Nat
  bills_20 : Nat
  bills_10 : Nat
  bills_5 : Nat
  bills_1 : Nat
  coins_amount : ℚ
  deriving DecidableEq

/-- The all-zero breakdown initialised at the top of `simulate_bill_breakdown`. -/
def BillResult.zero : BillResult := ⟨0, 0, 0, 0, 0, 0, 0⟩

/-- `100*bills_100 + 50*bills_50 + ... + 1*bills_1`. -/
def BillResult.total (r : BillResult) : Nat :=
  100 * r.bills_100 + 50 * r.bills_50 + 20 * r.bills_20 +
    10 * r.bills_10 + 5 * r.bills_5 + r.bills_1

/-- `simulate_bill_breakdown` (orchestrator.py lines 13-70).  `rng n` models
`random.randint(0, n)`, so a faithful draw satisfies `rng n ≤ n`.  The float
product `int(remaining * 0.7)` is modelled by the exact rational value
`7 * remaining / 10` (floor division). -/
def simulate_bill_breakdown (amount : ℚ) (rng : Nat → Nat) : BillResult :=
  if amount ≤ 0 then BillResult.zero
  else
    let remaining0 : Nat := amount.floor.toNat
    let hundreds_amount : Nat :=
      if remaining0 ≥ 100 then ((7 * remaining0 / 10) / 100) * 100 else 0
    let b100 : Nat := hundreds_amount / 100
    let remaining1 : Nat := remaining0 - hundreds_amount
    let b50 : Nat := if remaining1 ≥ 50 then rng (remaining1 / 50) else 0
    let remaining2 : Nat := remaining1 - b50 * 50
    let b20 : Nat := if remaining2 ≥ 20 then remaining2 / 20 else 0
    let remaining3 : Nat := remaining2 - b20 * 20
    let b10 : Nat := if remaining3 ≥ 10 then remaining3 / 10 else 0
    let remaining4 : Nat := remaining3 - b10 * 10
    let b5 : Nat := if remaining4 ≥ 5 then remaining4 / 5 else 0
    let remaining5 : Nat := remaining4 - b5 * 5
    ⟨b100, b50, b20, b10, b5, remaining5, 0⟩

/-- An account option offered in a clarification (the dicts built from
`candidates` throughout `process_conversation`): `account_name` is
`acc.get("account_name") or acc["type"]`. -/
structure AccountOption where
  id : Nat
  account_name : String
  type : String
  balance : ℚ
  currency : String
  deriving DecidableEq

/-- Build the option dict for one account. -/
def mkOption (a : Account) : AccountOption :=
  ⟨a.id, if truthyStr a.account_name then a.account_name.getD "" else a.type,
    a.type, a.balance, a.currency⟩

/-- `options = [ ... for acc in candidates ]`. -/
def mkOptions (accs : List Account) : List AccountOption :=
  accs.map mkOption

/-- An account label as computed by `acc.get("account_name") if acc else d`:
the Python value may itself be `None` when the found account has no name. -/
def accLabel (acc : Option Account) (dflt : String) : Option String :=
  match acc with
  | none => some dflt
  | some a => a.account_name

/-- The user-facing `question` strings.  f-strings are modelled by
constructors carrying the interpolated values. -/
inductive Question where
  /-- f-string: I see multiple `t` accounts. Which one should I use? -/
  | multipleAccounts (typeLower : String)
  /-- any fixed question string from the source -/
  | plain (s : String)
  /-- f-string: Missing required information: `e` -/
  | missingInfo (firstError : String)
  /-- f-string: How many checks would you like to deposit into `lbl`? -/
  | howManyChecks (accLbl : Option String)
  /-- f-string: What is the amount of check #`i`? -/
  | checkAmount (index : Nat)
  deriving DecidableEq

/-- The user-facing `message` strings.  f-strings are modelled by
constructors carrying the interpolated values. -/
inductive OutMsg where
  /-- any fixed message string from the source -/
  | plain (s : String)
  /-- fixed: Please enter just the number of checks. -/
  | enterNumChecksPrompt
  /-- f-string: Please enter just the amount for check #`i`. -/
  | enterCheckAmountPrompt (index : Nat)
  /-- f-string: Here is your account balance: `lbl`: $`b` -/
  | balanceInfo (label : String) (balance : ℚ)
  /-- f-string: No `t` accounts found. -/
  | noMatchingAccounts (typeLower : String)
  /-- f-string: I will help you withdraw $`amt` from `lbl`. -/
  | withdrawMsg (amount : ℚ) (label : Option String)
  /-- fixed: I will help you with that transaction. -/
  | genericTransaction
  /-- f-string: I will help you deposit $`amt` in cash into `lbl`. -/
  | cashDepositMsg (amount : ℚ) (label : Option String)
  /-- f-string: I will help you deposit cash into `lbl`. -/
  | cashDepositNoAmountMsg (label : Option String)
  /-- f-string: I will help you deposit `n` checks (total $`t`) into `lbl`. -/
  | checkDepositSummary (numChecks : Int) (total : ℚ) (label : Option String)
  /-- f-string: I will help you transfer $`amt` from `src` to `dst`. -/
  | transferMsg (amount : ℚ) (srcLabel : Option String) (dstLabel : Option String)
  /-- fixed: I will help you change your PIN. -/
  | changePinMsg
  /-- the raw text of the open-ended generation fallback -/
  | fromLLM (s : String)
  deriving DecidableEq

/-- One UI flow step datum; only the keys the source actually emits. -/
structure FlowData where
  mode : Option String := none
  preselected_account_id : Option Nat := none
  accounts : Option (List AccountOption) := none
  amount : Option ℚ := none
  account_id : Option Nat := none
  checks : Option (List Check) := none
  denominations : Option (Option BillResult) := none
  is_external : Option Bool := none
  preselected_type : Option String := none
  deriving DecidableEq

/-- One UI flow step: screen identifier plus payload. -/
structure FlowStep where
  step : String
  data : FlowData
  deriving DecidableEq

/-- The dictionary returned by `process_conversation`; a `none` field models
an absent key.  `pending_echo` models the `_pending_intent` key of the
source (the intent echoed back for the client to hold across turns). -/
structure ProcResult where
  success : Bool
  message : Option OutMsg := none
  clarification_needed : Option Bool := none
  question : Option Question := none
  options : Option (List AccountOption) := none
  missing_fields : Option (List String) := none
  error : Option String := none
  transaction_intent : Option Intent := none
  flow_steps : Option (List FlowStep) := none
  pending_echo : Option Intent := none
  tool_calls : Option (List String) := none
  deriving DecidableEq

/-- Python `str.upper()` (ASCII, which covers the account-type vocabulary). -/
def strUpper (s : String) : String :=
  String.mk (s.toList.map Char.toUpper)

/-- Python `str.lower()` (ASCII, which covers the account-type vocabulary). -/
def strLower (s : String) : String :=
  String.mk (s.toList.map Char.toLower)

/-- `acct_type.lower() if acct_type else ""`. -/
def typeLowerOf (t : Option String) : String :=
  if truthyStr t then strLower (t.getD "") else ""

/-- `[acc for acc in accounts if (acc.get("type") or "").upper() == acct_type.upper()]`,
applied only when an account type is stated (otherwise all accounts). -/
def filterByType (accounts : List Account) (t : Option String) : List Account :=
  if truthyStr t then
    accounts.filter (fun a => strUpper a.type == strUpper (t.getD ""))
  else accounts

/-- `OllamaOrchestrator.pick_account_id_for_type` (lines 391-401): the id of
the unique account of the given canonical type, else `None`. -/
def pick_account_id_for_type (canonical_type : Option String) (accounts : List Account) :
    Option Nat :=
  if ¬ truthyStr canonical_type then none
  else
    match accounts.filter
        (fun a => strUpper a.type == strUpper (canonical_type.getD "")) with
    | [a] => some a.id
    | _ => none

/-- The ordered `field_map` of the generic clarification branch (lines 731-740). -/
def field_map : List (String × String) :=
  [("account_id", "Which account should I use?"),
   ("account_type", "What type of account?"),
   ("amount", "How much should I process?"),
   ("source_account_id", "Which account should I transfer from?"),
   ("destination_account_id", "Which account should I transfer to?"),
   ("is_external", "Is this an external transfer?"),
   ("check_number", "What is the check number?"),
   ("account_id or account_type is required", "Which account or account type should I use?")]

/-- Python `needle in haystack` on strings, as character lists. -/
def isSubstr (needle : List Char) : List Char → Bool
  | [] => needle.isEmpty
  | c :: rest => needle.isPrefixOf (c :: rest) || isSubstr needle rest

/-- The nested loop of lines 741-747: for the first error having a
`field_map` key as substring, the question of that key. -/
def firstMappedQuestion : List String → Option String
  | [] => none
  | e :: rest =>
    match (field_map.find? (fun kv => isSubstr kv.1.toList e.toList)).map Prod.snd with
    | some q => some q
    | none => firstMappedQuestion rest

/-- The validation-failure branch of `process_conversation` (lines 673-759):
missing-account errors produce a clarification with candidate options (or an
empty-options clarification when no candidate matches); all other errors
produce a generic question via `field_map`. -/
def validationErrorResult (accounts : List Account) (intent : Intent)
    (errors : List String) : ProcResult :=
  if "account_id is required" ∈ errors ∨
      "account_id or account_type is required" ∈ errors then
    let candidates := filterByType accounts intent.account_type
    if candidates ≠ [] then
      { success := false, clarification_needed := some true,
        question := some (.multipleAccounts (typeLowerOf intent.account_type)),
        options := some (mkOptions candidates),
        missing_fields := some errors,
        error := some "MISSING_FIELDS" }
    else
      { success := false, clarification_needed := some true,
        question := some (.plain "Which account should I use?"),
        options := some [],
        missing_fields := some errors,
        error := some "MISSING_FIELDS" }
  else
    let q : Question :=
      match firstMappedQuestion errors with
      | some s => .plain s
      | none => .missingInfo (errors.headD "")
    { success := false, clarification_needed := some false,
      question := some q, options := some [],
      missing_fields := some errors,
      error := some "MISSING_FIELDS" }

/-- Oracle for the non-deterministic ingredients of the orchestrator:
`rng n` models `random.randint(0, n)`; `checkDetails k` models the
synthesized `(check_number, check_date, payer_name)` of the `k`-th
collected check (random id, current UTC date, random payer pick). -/
structure Env where
  rng : Nat → Nat
  checkDetails : Nat → String × String × String

/-- Show-one-balance tail of the BALANCE_INQUIRY handler (lines 798-833). -/
def balanceShow (accounts : List Account) (intent : Intent) (acct_id : Nat) :
    ProcResult × Intent :=
  match accounts.find? (fun a => a.id == acct_id) with
  | some acc =>
    let lbl := if truthyStr acc.account_name then acc.account_name.getD "" else acc.type
    ({ success := true,
       message := some (.balanceInfo lbl acc.balance),
       transaction_intent := some intent,
       flow_steps := some [⟨"account_info",
         { mode := some "BALANCE", accounts := some [mkOption acc] }⟩],
       error := none }, intent)
  | none =>
    ({ success := false, message := some (.plain "Account not found."),
       error := some "ACCOUNT_NOT_FOUND" }, intent)

/-- BALANCE_INQUIRY handler (lines 769-833): auto-select only when exactly
one account exists in total, else clarify over all accounts. -/
def handleBalanceInquiry (accounts : List Account) (intent : Intent) :
    ProcResult × Intent :=
  if ¬ truthyNat intent.account_id then
    match accounts with
    | [a] => balanceShow accounts { intent with account_id := some a.id } a.id
    | _ =>
      ({ success := false, clarification_needed := some true,
         question := some (.plain "Which account would you like to check the balance for?"),
         options := some (mkOptions accounts),
         missing_fields := some ["account_id is required"],
         error := some "MISSING_FIELDS" }, intent)
  else balanceShow accounts intent (intent.account_id.getD 0)

/-- Post-account-resolution tail of the WITHDRAW handler (lines 882-943). -/
def withdrawFinish (accounts : List Account) (intent : Intent) (acct_id : Nat) :
    ProcResult × Intent :=
  if ¬ truthyQ intent.amount then
    ({ success := false, clarification_needed := some false,
       question := some (.plain "How much would you like to withdraw?"),
       options := some [],
       missing_fields := some ["amount is required"],
       error := some "MISSING_FIELDS" }, intent)
  else
    let amt := intent.amount.getD 0
    let acc := accounts.find? (fun a => a.id == acct_id)
    ({ success := true,
       message := some (.withdrawMsg amt (accLabel acc "your account")),
       transaction_intent := some intent,
       flow_steps := some [
         ⟨"account_selection",
           { mode := some "WITHDRAW", preselected_account_id := some acct_id }⟩,
         ⟨"withdrawal_amount", { amount := some amt }⟩,
         ⟨"withdrawal_denomination", {}⟩,
         ⟨"withdrawal_confirm", {}⟩],
       error := none }, intent)

/-- WITHDRAW handler (lines 836-943), including its (statically dead, see
`no_matching_accounts` theorems) account-resolution prefix. -/
def handleWithdraw (accounts : List Account) (intent : Intent) :
    ProcResult × Intent :=
  if ¬ truthyNat intent.account_id then
    let candidates := filterByType accounts intent.account_type
    match candidates with
    | [c] => withdrawFinish accounts { intent with account_id := some c.id } c.id
    | [] =>
      ({ success := false,
         message := some (.noMatchingAccounts (typeLowerOf intent.account_type)),
         error := some "NO_MATCHING_ACCOUNTS" }, intent)
    | _ =>
      ({ success := false, clarification_needed := some true,
         question := some (.plain "Which account would you like to withdraw from?"),
         options := some (mkOptions candidates),
         missing_fields := some ["account_id is required"],
         error := some "MISSING_FIELDS" }, intent)
  else withdrawFinish accounts intent (intent.account_id.getD 0)

/-- Post-resolution tail of the CASH_DEPOSIT handler (lines 994-1056); the
final `else` is the shared bottom return of `process_conversation`. -/
def cashFinish (env : Env) (accounts : List Account) (intent : Intent) :
    ProcResult × Intent :=
  if truthyNat intent.account_id then
    let aid := intent.account_id.getD 0
    let acc := accounts.find? (fun a => a.id == aid)
    let lbl := accLabel acc "your account"
    let amt := intent.amount
    let msg : OutMsg :=
      if truthyQ amt then .cashDepositMsg (amt.getD 0) lbl else .cashDepositNoAmountMsg lbl
    let sim : Option BillResult :=
      if truthyQ amt ∧ 0 < amt.getD 0 then
        some (simulate_bill_breakdown (amt.getD 0) env.rng)
      else none
    ({ success := true, message := some msg, transaction_intent := some intent,
       flow_steps := some [
         ⟨"account_selection",
           { mode := some "CASH_DEPOSIT", preselected_account_id := some aid }⟩,
         ⟨"deposit_type_selection",
           { mode := some "CASH_DEPOSIT", account_id := some aid,
             preselected_type := some "cash" }⟩,
         ⟨"cash_deposit_screen",
           { account_id := some aid, denominations := some sim }⟩,
         ⟨"cash_deposit_review", { account_id := some aid }⟩,
         ⟨"cash_deposit_confirmation", { account_id := some aid }⟩],
       error := none }, intent)
  else
    ({ success := true, message := some .genericTransaction,
       transaction_intent := some intent, flow_steps := some [],
       error := none }, intent)

/-- CASH_DEPOSIT handler (lines 948-1056). -/
def handleCashDeposit (env : Env) (accounts : List Account) (intent : Intent) :
    ProcResult × Intent :=
  if ¬ truthyNat intent.account_id then
    let candidates := filterByType accounts intent.account_type
    match candidates with
    | [c] => cashFinish env accounts { intent with account_id := some c.id }
    | [] =>
      ({ success := false,
         message := some (.noMatchingAccounts (typeLowerOf intent.account_type)),
         error := some "NO_MATCHING_ACCOUNTS" }, intent)
    | _ =>
      ({ success := false, clarification_needed := some true,
         question := some (.plain "Which account would you like to deposit cash into?"),
         options := some (mkOptions candidates),
         missing_fields := some ["account_id is required"],
         error := some "MISSING_FIELDS" }, intent)
  else cashFinish env accounts intent

/-- CHECK_DEPOSIT handler (lines 1058-1199): never auto-selects an account;
runs the check-collection sub-dialogue against `_check_collection_state`.
(The defensive re-assertion of `account_id` in the source inside the truthy
branch is a no-op there and is omitted.) -/
def handleCheckDeposit (accounts : List Account) (intent : Intent) :
    ProcResult × Intent :=
  if ¬ truthyNat intent.account_id then
    let candidates := filterByType accounts intent.account_type
    if candidates ≠ [] then
      ({ success := false, clarification_needed := some true,
         question := some (.plain "Which account would you like to deposit the check into?"),
         options := some (mkOptions candidates),
         missing_fields := some ["account_id is required"],
         error := some "MISSING_FIELDS",
         pending_echo := some intent }, intent)
    else
      ({ success := false,
         message := some (.noMatchingAccounts (typeLowerOf intent.account_type)),
         error := some "NO_MATCHING_ACCOUNTS" }, intent)
  else
    let aid := intent.account_id.getD 0
    let acc := accounts.find? (fun a => a.id == aid)
    let lbl := accLabel acc "your account"
    let st := intent.check_state.getD CheckState.empty
    if ¬ truthyInt st.num_checks then
      ({ success := false, clarification_needed := some true,
         question := some (.howManyChecks lbl),
         options := some [],
         missing_fields := some ["number_of_checks"],
         error := some "MISSING_FIELDS",
         pending_echo := some intent }, intent)
    else
      let num := st.num_checks.getD 0
      let collected := st.checks
      if (collected.length : Int) < num then
        ({ success := false, clarification_needed := some true,
           question := some (.checkAmount (collected.length + 1)),
           options := some [],
           missing_fields := some ["check_" ++ toString (collected.length + 1) ++ "_amount"],
           error := some "MISSING_FIELDS",
           pending_echo := some intent }, intent)
      else
        let total := (collected.map Check.amount).sum
        ({ success := true,
           message := some (.checkDepositSummary num total lbl),
           transaction_intent := some intent,
           flow_steps := some [
             ⟨"deposit_type_selection",
               { account_id := some aid, preselected_type := some "check" }⟩,
             ⟨"check_deposit_screen",
               { account_id := some aid, checks := some collected }⟩,
             ⟨"check_deposit_review", {}⟩,
             ⟨"check_deposit_confirmation", {}⟩],
           error := none }, intent)

/-- Amount check and success assembly of the TRANSFER handler (lines
1308-1369). -/
def transferFinish (accounts : List Account) (intent : Intent) (src_id : Nat)
    (dst_id : Option Nat) : ProcResult × Intent :=
  if ¬ truthyQ intent.amount then
    ({ success := false, clarification_needed := some false,
       question := some (.plain "How much would you like to transfer?"),
       options := some [],
       missing_fields := some ["amount is required"],
       error := some "MISSING_FIELDS" }, intent)
  else
    let amt := intent.amount.getD 0
    let src := accounts.find? (fun a => a.id == src_id)
    let dst := if truthyNat dst_id then
        accounts.find? (fun a => a.id == dst_id.getD 0)
      else none
    let is_ext := intent.is_external.getD false
    let src_label := accLabel src "your source account"
    let dst_label :=
      if is_ext then some "your external account"
      else accLabel dst "your destination account"
    ({ success := true,
       message := some (.transferMsg amt src_label dst_label),
       transaction_intent := some intent,
       flow_steps := some [
         ⟨"transfer_to_account",
           { preselected_account_id := dst_id, is_external := some is_ext }⟩,
         ⟨"transfer_from_account", { preselected_account_id := some src_id }⟩,
         ⟨"transfer_amount", { amount := some amt }⟩,
         ⟨"transfer_review", {}⟩,
         ⟨"transfer_confirmation", {}⟩],
       error := none }, intent)

/-- Missing-destination check of the TRANSFER handler (lines 1262-1306),
entered with a resolved source id. -/
def transferAfterSrc (accounts : List Account) (intent : Intent) (src_id : Nat)
    (dst_id : Option Nat) : ProcResult × Intent :=
  if ¬ truthyNat dst_id ∧ ¬ (intent.is_external = some true) then
    let cands0 := accounts.filter (fun a => a.id != src_id)
    let dst_type := intent.destination_account_type
    let cands :=
      if truthyStr dst_type ∧ cands0 ≠ [] then
        let typed := cands0.filter
          (fun a => strUpper a.type == strUpper (dst_type.getD ""))
        if typed ≠ [] then typed else cands0
      else cands0
    if cands ≠ [] then
      ({ success := false, clarification_needed := some true,
         question := some (.plain "Which account would you like to transfer to?"),
         options := some (mkOptions cands),
         missing_fields := some ["to_account_id is required"],
         error := some "MISSING_FIELDS",
         pending_echo := some intent }, intent)
    else
      ({ success := false, clarification_needed := some false,
         question := some (.plain "You only have one account. Cannot transfer to the same account."),
         options := some [],
         missing_fields := some ["to_account_id is required"],
         error := some "MISSING_FIELDS" }, intent)
  else transferFinish accounts intent src_id dst_id

/-- TRANSFER handler (lines 1201-1369): type-based resolution of source and
destination (destination candidates exclude a resolved source), then the
missing-source, missing-destination and missing-amount checks. -/
def handleTransfer (accounts : List Account) (intent0 : Intent) :
    ProcResult × Intent :=
  let src0 := intent0.source_account_id
  let dst0 := intent0.destination_account_id
  -- lines 1202-1210: resolve source_account_type
  let step1 : Intent × Option Nat :=
    if truthyNat src0 then (intent0, src0)
    else if truthyStr intent0.source_account_type then
      match pick_account_id_for_type intent0.source_account_type accounts with
      | some v =>
        if v ≠ 0 then
          ({ intent0 with source_account_id := some v, from_account_id := some v },
            some v)
        else (intent0, some v)
      | none => (intent0, none)
    else (intent0, src0)
  let intent1 := step1.1
  let src1 := step1.2
  -- lines 1212-1222: resolve destination_account_type, excluding the source
  let step2 : Intent × Option Nat :=
    if truthyNat dst0 then (intent1, dst0)
    else if truthyStr intent1.destination_account_type then
      let dst_candidates :=
        if truthyNat src1 then accounts.filter (fun a => a.id != src1.getD 0)
        else accounts
      match pick_account_id_for_type intent1.destination_account_type dst_candidates with
      | some v =>
        if v ≠ 0 then
          ({ intent1 with destination_account_id := some v, to_account_id := some v },
            some v)
        else (intent1, some v)
      | none => (intent1, none)
    else (intent1, dst0)
  let intent2 := step2.1
  let dst2 := step2.2
  -- lines 1224-1260: missing source
  if ¬ truthyNat src1 then
    match accounts with
    | [a] =>
      transferAfterSrc accounts
        { intent2 with source_account_id := some a.id, from_account_id := some a.id }
        a.id dst2
    | _ =>
      let src_type := intent2.source_account_type
      let candidates :=
        if truthyStr src_type then
          let typed := accounts.filter
            (fun a => strUpper a.type == strUpper (src_type.getD ""))
          if typed = [] then accounts else typed
        else accounts
      ({ success := false, clarification_needed := some true,
         question := some (.plain "Which account would you like to transfer from?"),
         options := some (mkOptions candidates),
         missing_fields := some ["from_account_id is required"],
         error := some "MISSING_FIELDS",
         pending_echo := some intent2 }, intent2)
  else transferAfterSrc accounts intent2 (src1.getD 0) dst2

/-- Section C of `process_conversation` (lines 669-1384): validation, then
the per-operation handlers; returns the result together with the (possibly
mutated) intent, which the session context keeps pointing at. -/
def handleIntent (env : Env) (accounts : List Account) (intent : Intent) :
    ProcResult × Intent :=
  let errors := validate_intent intent
  if errors ≠ [] then (validationErrorResult accounts intent errors, intent)
  else
    let op := intent.operation.getD ""
    if op = "BALANCE_INQUIRY" then handleBalanceInquiry accounts intent
    else if op = "WITHDRAW" then handleWithdraw accounts intent
    else if op = "CASH_DEPOSIT" then handleCashDeposit env accounts intent
    else if op = "CHECK_DEPOSIT" then handleCheckDeposit accounts intent
    else if op = "TRANSFER" then handleTransfer accounts intent
    else if op = "CHANGE_PIN" then
      ({ success := true, message := some .changePinMsg,
         transaction_intent := some intent, flow_steps := some [],
         error := none }, intent)
    else
      ({ success := true, message := some .genericTransaction,
         transaction_intent := some intent, flow_steps := some [],
         error := none }, intent)

/-- The inbound message as classified by `process_conversation`:
`useAccount n` is a message matching the regex `Use account id: (\d+)`;
`numeric q` is a message that `float()` parses (after stripping `$` and
commas); `text` is anything else.  The three are mutually exclusive in the
source (a regex match is tested first, then the float parse). -/
inductive Msg where
  | useAccount (id : Nat)
  | numeric (q : ℚ)
  | text (s : String)

/-- Lines 540-544. -/
def noPreviousIntentResult : ProcResult :=
  { success := false,
    message := some (.plain "I could not find the previous transaction. Please say it again."),
    error := some "NO_PREVIOUS_INTENT" }

/-- Lines 584-588. -/
def invalidNumberResult : ProcResult :=
  { success := false,
    message := some (.plain "Please enter a valid number of checks (1-50)."),
    error := some "INVALID_NUMBER" }

/-- Lines 602-606. -/
def invalidAmountResult : ProcResult :=
  { success := false,
    message := some (.plain "Please enter a valid check amount greater than $0."),
    error := some "INVALID_AMOUNT" }

/-- Lines 645-649. -/
def invalidFormatNumResult : ProcResult :=
  { success := false, message := some .enterNumChecksPrompt,
    error := some "INVALID_FORMAT" }

/-- Lines 652-657. -/
def invalidFormatAmountResult (index : Nat) : ProcResult :=
  { success := false, message := some (.enterCheckAmountPrompt index),
    error := some "INVALID_FORMAT" }

/-- Lines 1398-1402. -/
def llmUnavailableResult : ProcResult :=
  { success := false,
    message := some (.plain "Conversational mode unavailable. Please use Traditional ATM."),
    error := some "LLM_UNAVAILABLE" }

/-- Lines 1405-1410: the open-ended generation fallback succeeded. -/
def fallbackSuccessResult (t : String) : ProcResult :=
  { success := true, message := some (.fromLLM t),
    tool_calls := some [], error := none }

/-- Patching a follow-up `Use account id:` selection into the pending intent
(lines 546-561): for TRANSFER, first-missing-wins between source and
destination, falling back to overwriting the source. -/
def patchAccountSelection (li : Intent) (selected : Nat) : Intent :=
  if li.operation = some "TRANSFER" then
    if ¬ truthyNat li.from_account_id ∧ ¬ truthyNat li.source_account_id then
      { li with from_account_id := some selected, source_account_id := some selected }
    else if ¬ truthyNat li.to_account_id ∧ ¬ truthyNat li.destination_account_id then
      { li with to_account_id := some selected, destination_account_id := some selected }
    else
      { li with from_account_id := some selected, source_account_id := some selected }
  else { li with account_id := some selected }

/-- The fresh-turn path (sections B and D, lines 658-664 and 1386-1410):
`freshExtract` is the intent produced by `extract_transaction_intent` on the
current message (`none` when the LLM fails or returns no parseable intent);
`fallbackResponse` is the open-ended generation response text (`none` when
the generator is unavailable after retries). -/
def freshProcess (env : Env) (freshExtract : Option Intent)
    (fallbackResponse : Option String) (accounts : List Account) :
    ProcResult × Option Intent :=
  match freshExtract with
  | some i =>
    let r := handleIntent env accounts i
    (r.1, some r.2)
  | none =>
    match fallbackResponse with
    | none => (llmUnavailableResult, none)
    | some t => (fallbackSuccessResult t, none)

/-- `process_conversation` (lines 507-1410), as a function of the message
classification, the caller-supplied pending intent and accounts, and the
LLM oracles.  Returns the result together with the final value of
`session_context["pending_intent"]` (the source mutates the pending intent
dict in place; the second component tracks it explicitly). -/
def processConversation (env : Env) (msg : Msg) (pending : Option Intent)
    (lastUserExtract freshExtract : Option Intent)
    (fallbackResponse : Option String) (accounts : List Account) :
    ProcResult × Option Intent :=
  match msg with
  | .useAccount selected =>
    -- A1 (lines 522-565)
    match pending.orElse (fun _ => lastUserExtract) with
    | none => (noPreviousIntentResult, pending)
    | some li =>
      let li2 := patchAccountSelection li selected
      let r := handleIntent env accounts li2
      (r.1, some r.2)
  | .numeric q =>
    match pending with
    | some li =>
      if li.operation = some "CHECK_DEPOSIT" then
        -- A2 numeric sub-dialogue (lines 567-636)
        let st := li.check_state.getD CheckState.empty
        if ¬ truthyInt st.num_checks then
          let n := truncToInt q
          if n ≤ 0 ∨ 50 < n then (invalidNumberResult, pending)
          else
            let li2 := { li with check_state := some ⟨some n, []⟩ }
            let r := handleIntent env accounts li2
            (r.1, some r.2)
        else if (st.checks.length : Int) < st.num_checks.getD 0 then
          if q ≤ 0 then (invalidAmountResult, pending)
          else
            let d := env.checkDetails st.checks.length
            let c : Check := ⟨d.1, d.2.1, d.2.2, q⟩
            let li2 := { li with check_state := some ⟨st.num_checks, st.checks ++ [c]⟩ }
            let r := handleIntent env accounts li2
            (r.1, some r.2)
        else
          let r := handleIntent env accounts li
          (r.1, some r.2)
      else freshProcess env freshExtract fallbackResponse accounts
    | none => freshProcess env freshExtract fallbackResponse accounts
  | .text _ =>
    match pending with
    | some li =>
      if li.operation = some "CHECK_DEPOSIT" then
        -- A2 non-numeric branch (lines 638-657)
        let st := li.check_state.getD CheckState.empty
        if ¬ truthyInt st.num_checks then (invalidFormatNumResult, pending)
        else (invalidFormatAmountResult (st.checks.length + 1), pending)
      else freshProcess env freshExtract fallbackResponse accounts
    | none => freshProcess env freshExtract fallbackResponse accounts

/-- Modelled from the spec: the UI client that holds the pending intent
between calls is not under `src/` (only the backend is).  Per the spec
lifecycle, the pending intent "is discarded once a result with non-empty
`flow_steps` is returned (considered dispatched to the UI)", and is kept
otherwise. -/
def clientPendingAfter (r : ProcResult) (pendingOut : Option Intent) :
    Option Intent :=
  if r.flow_steps.getD [] ≠ [] then none else pendingOut

/-- Outcome of one attempt against the generation endpoint:
`ok` (HTTP 2xx with a body), `netErr` (an `httpx.RequestError` or
`httpx.HTTPStatusError`), or `fatalErr` (any other exception, which the
source does not catch). -/
inductive AttemptOutcome where
  | ok (resp : String)
  | netErr
  | fatalErr

/-- Loop body of `retry_ollama_request` (lines 128-159): `fuel` is the
number of loop iterations left, `attempt` the current 0-based attempt index.
Returns `Except.error ()` when an uncaught exception propagates, otherwise
the (optional) response, paired with the list of back-off sleeps performed
(in seconds, in order). -/
def retryAux (backoff : ℚ) (outcomes : Nat → AttemptOutcome) :
    Nat → Nat → Except Unit (Option String) × List ℚ
  | 0, _ => (.ok none, [])
  | fuel + 1, attempt =>
    match outcomes attempt with
    | .ok r => (.ok (some r), [])
    | .netErr =>
      if fuel = 0 then (.ok none, [])
      else
        let rest := retryAux backoff outcomes fuel (attempt + 1)
        (rest.1, backoff * 2 ^ attempt :: rest.2)
    | .fatalErr => (.error (), [])

/-- `retry_ollama_request` (lines 128-159) with `retry_attempts` attempts
and back-off base `backoff` seconds. -/
def retry_ollama_request (retry_attempts : Nat) (backoff : ℚ)
    (outcomes : Nat → AttemptOutcome) : Except Unit (Option String) × List ℚ :=
  retryAux backoff outcomes retry_attempts 0

/-- First index of a character in a list (Python `str.find`, as an option). -/
def findCharIdx (c : Char) (l : List Char) : Option Nat :=
  l.findIdx? (fun x => x == c)

/-- Last index of a character in a list (Python `str.rfind`, as an option). -/
def rfindCharIdx (c : Char) (l : List Char) : Option Nat :=
  (findCharIdx c l.reverse).map (fun i => l.length - 1 - i)

/-- The JSON-span extraction of `get_intent_from_llm` (lines 307-313):
`raw[start : end + 1]` for `start` the first `{` and `end` the last `}`,
or `None` when either is absent or `end <= start`. -/
def extract_json_span (raw : List Char) : Option (List Char) :=
  match findCharIdx '\x7b' raw, rfindCharIdx '\x7d' raw with
  | some s, some e =>
    if e ≤ s then none else some ((raw.drop s).take (e + 1 - s))
  | _, _ => none

/-- `get_intent_from_llm` (lines 287-319) given a JSON decoder for the
Intent schema: `none` on a missing response, a missing span, or a decode
failure. -/
def get_intent_from_llm (decode : List Char → Option Intent)
    (response : Option (List Char)) : Option Intent :=
  match response with
  | none => none
  | some raw =>
    match extract_json_span raw with
    | none => none
    | some span => decode span

/-! ### Concrete fixtures used by the claim instances below -/

/-- A fixed oracle: the rng always draws 0 and the synthesized check details
are constant. -/
def demoEnv : Env := ⟨fun _ => 0, fun _ => ("CHK483920", "2026-10-12", "ABC Corporation")⟩

/-- A savings account snapshot. -/
def savingsAccount : Account := ⟨1, "SAVINGS", some "My Savings", 900, "USD"⟩

/-- A checking account snapshot. -/
def checkingAccount : Account := ⟨2, "CHECKING", some "My Checking", 500, "USD"⟩

/-- A WITHDRAW intent naming a type and an amount but no account id. -/
def singleSavingsWithdraw : Intent :=
  { operation := some "WITHDRAW", account_type := some "SAVINGS", amount := some 100 }

/-- A TRANSFER intent naming only a destination type and an amount. -/
def sameTypeTransfer : Intent :=
  { operation := some "TRANSFER", destination_account_type := some "SAVINGS",
    amount := some 50 }

/-- The pending CHECK_DEPOSIT intent at the start of the collection
sub-dialogue (account already chosen, nothing collected yet). -/
def checkScenarioStart : Intent :=
  { operation := some "CHECK_DEPOSIT", account_id := some 2 }

/-- Turn 1 of the scenario of the spec: the user answers 3 to the
number-of-checks question. -/
def turn1 (env : Env) : ProcResult × Option Intent :=
  processConversation env (.numeric 3) (some checkScenarioStart) none none none
    [checkingAccount]

/-- Turn 2: the user states 100 as the first check amount. -/
def turn2 (env : Env) : ProcResult × Option Intent :=
  processConversation env (.numeric 100) (turn1 env).2 none none none [checkingAccount]

/-- Turn 3: the user states 200 as the second check amount. -/
def turn3 (env : Env) : ProcResult × Option Intent :=
  processConversation env (.numeric 200) (turn2 env).2 none none none [checkingAccount]

/-- Turn 4: the user states 300 as the third and final check amount. -/
def turn4 (env : Env) : ProcResult × Option Intent :=
  processConversation env (.numeric 300) (turn3 env).2 none none none [checkingAccount]

/-- The check synthesized for the k-th collected amount under oracle `env`. -/
def mkCheckAt (env : Env) (k : Nat) (amt : ℚ) : Check :=
  ⟨(env.checkDetails k).1, (env.checkDetails k).2.1, (env.checkDetails k).2.2, amt⟩

/-- The three checks collected in the scenario, in collection order. -/
def scenarioChecks (env : Env) : List Check :=
  [mkCheckAt env 0 100, mkCheckAt env 1 200, mkCheckAt env 2 300]

/-! ### Helper lemmas -/

/-- `coins_amount` is 0 on every path of `simulate_bill_breakdown`. -/
lemma simulate_coins (rng : Nat → Nat) (A : ℚ) :
    (simulate_bill_breakdown A rng).coins_amount = 0 := by
  unfold simulate_bill_breakdown
  split <;> rfl

/-- For a positive amount and an in-range $50 draw, the weighted bill count
of `simulate_bill_breakdown` equals the integer part of the amount. -/
lemma simulate_total (rng : Nat → Nat) (hr : ∀ n, rng n ≤ n) (A : ℚ) (hA : 0 < A) :
    (simulate_bill_breakdown A rng).total = A.floor.toNat := by
  unfold simulate_bill_breakdown
  rw [if_neg (not_le.mpr hA)]
  dsimp only [BillResult.total]
  generalize A.floor.toNat = r
  by_cases h100 : r ≥ 100
  · simp only [h100, if_true]
    have hb := hr ((r - 7 * r / 10 / 100 * 100) / 50)
    split_ifs <;> omega
  · simp only [h100, if_false]
    have hb := hr ((r - 0) / 50)
    split_ifs <;> omega

/-- A missing-account validation error with a non-empty candidate list ends
in the options clarification of lines 688-714, never in the handlers. -/
lemma handleIntent_missing_account_options (env : Env) (accounts : List Account)
    (intent : Intent)
    (hv : "account_id is required" ∈ validate_intent intent)
    (hcand : filterByType accounts intent.account_type ≠ []) :
    (handleIntent env accounts intent).1 =
      { success := false, clarification_needed := some true,
        question := some (.multipleAccounts (typeLowerOf intent.account_type)),
        options := some (mkOptions (filterByType accounts intent.account_type)),
        missing_fields := some (validate_intent intent),
        error := some "MISSING_FIELDS" } := by
  have hne : validate_intent intent ≠ [] := by
    intro h0
    rw [h0] at hv
    exact List.not_mem_nil _ hv
  unfold handleIntent
  dsimp only
  rw [if_pos hne]
  unfold validationErrorResult
  dsimp only
  rw [if_pos (Or.inl hv), if_pos hcand]

/-- A missing-account validation error with no candidate of the stated type
ends in the empty-options clarification of lines 716-727. -/
lemma handleIntent_missing_account_nocand (env : Env) (accounts : List Account)
    (intent : Intent)
    (hv : "account_id is required" ∈ validate_intent intent)
    (hcand : filterByType accounts intent.account_type = []) :
    (handleIntent env accounts intent).1 =
      { success := false, clarification_needed := some true,
        question := some (.plain "Which account should I use?"),
        options := some [],
        missing_fields := some (validate_intent intent),
        error := some "MISSING_FIELDS" } := by
  have hne : validate_intent intent ≠ [] := by
    intro h0
    rw [h0] at hv
    exact List.not_mem_nil _ hv
  unfold handleIntent
  dsimp only
  rw [if_pos hne]
  unfold validationErrorResult
  dsimp only
  rw [if_pos (Or.inl hv), if_neg (by simpa using hcand)]

/-- WITHDRAW, CASH_DEPOSIT and CHECK_DEPOSIT intents without an account id
all fail validation with the missing-account error code. -/
lemma validate_mem_account_required (intent : Intent)
    (hop : intent.operation = some "WITHDRAW" ∨ intent.operation = some "CASH_DEPOSIT" ∨
      intent.operation = some "CHECK_DEPOSIT")
    (hacct : intent.account_id = none) :
    "account_id is required" ∈ validate_intent intent := by
  rcases hop with h | h | h <;> simp [validate_intent, h, hacct, truthyNat]

/-- `findCharIdx` is `none` when the character does not occur. -/
lemma findCharIdx_eq_none_of_not_mem (c : Char) (l : List Char) (h : c ∉ l) :
    findCharIdx c l = none := by
  unfold findCharIdx
  rw [List.findIdx?_eq_none_iff]
  intro x hx
  simp only [beq_eq_false_iff_ne, ne_eq]
  intro he
  exact h (he ▸ hx)

/-! ### Claim C1 -/

/-- Claim C1 counterexample: with a WITHDRAW intent lacking an account id,
a stated SAVINGS type and exactly one matching account, the claim predicts
silent auto-resolution, but `process_conversation` returns a clarification
question listing the single candidate. -/
theorem claim_C1_counterexample :
    (processConversation demoEnv (.text "withdraw 100 from savings") none none
        (some singleSavingsWithdraw) none [savingsAccount]).1.clarification_needed = some true ∧
    (processConversation demoEnv (.text "withdraw 100 from savings") none none
        (some singleSavingsWithdraw) none [savingsAccount]).1.success = false ∧
    (processConversation demoEnv (.text "withdraw 100 from savings") none none
        (some singleSavingsWithdraw) none [savingsAccount]).1.question =
      some (.multipleAccounts "savings") := by
  decide

/-- Claim C1 (amended): when a fresh intent of operation WITHDRAW,
CASH_DEPOSIT or CHECK_DEPOSIT lacks an account id and at least one account
matches the stated type (or any account exists when no type is stated),
`process_conversation` returns the candidate-options clarification — even
with exactly one candidate; no operation auto-resolves silently here,
because validation intercepts the missing account before the handlers. -/
theorem claim_C1_theorem (env : Env) (m : String) (lue : Option Intent)
    (fb : Option String) (intent : Intent) (accounts : List Account)
    (hop : intent.operation = some "WITHDRAW" ∨ intent.operation = some "CASH_DEPOSIT" ∨
      intent.operation = some "CHECK_DEPOSIT")
    (hacct : intent.account_id = none)
    (hcand : filterByType accounts intent.account_type ≠ []) :
    (processConversation env (.text m) none lue (some intent) fb accounts).1 =
      { success := false, clarification_needed := some true,
        question := some (.multipleAccounts (typeLowerOf intent.account_type)),
        options := some (mkOptions (filterByType accounts intent.account_type)),
        missing_fields := some (validate_intent intent),
        error := some "MISSING_FIELDS" } :=
  handleIntent_missing_account_options env accounts intent
    (validate_mem_account_required intent hop hacct) hcand

/-- Claim C1 witness: the amended statement instantiated at a CHECK_DEPOSIT
intent with two candidate accounts. -/
theorem claim_C1_witness :
    (processConversation demoEnv (.text "deposit a check") none none
        (some ({ operation := some "CHECK_DEPOSIT" } : Intent)) none
        [savingsAccount, checkingAccount]).1 =
      { success := false, clarification_needed := some true,
        question := some (.multipleAccounts
          (typeLowerOf (Intent.account_type { operation := some "CHECK_DEPOSIT" }))),
        options := some (mkOptions (filterByType [savingsAccount, checkingAccount]
          (Intent.account_type { operation := some "CHECK_DEPOSIT" }))),
        missing_fields := some (validate_intent { operation := some "CHECK_DEPOSIT" }),
        error := some "MISSING_FIELDS" } :=
  claim_C1_theorem demoEnv "deposit a check" none none _ _
    (Or.inr (Or.inr rfl)) rfl (by decide)

/-! ### Claim C2 -/

/-- Claim C2 counterexample: a TRANSFER intent with every field missing
(no source, no destination, no amount) nevertheless gets an empty error
list from `validate_intent`, contradicting the claimed required-field
checks (the source marks the TRANSFER arm `pass`). -/
theorem claim_C2_counterexample :
    validate_intent ({ operation := some "TRANSFER" } : Intent) = [] := rfl

/-- Claim C2 (amended): `validate_intent` returns the empty list for every
TRANSFER intent, whatever its fields; the missing-field handling for
TRANSFER happens conversationally inside the TRANSFER handler of
`process_conversation` instead. -/
theorem claim_C2_theorem (intent : Intent)
    (h : intent.operation = some "TRANSFER") :
    validate_intent intent = [] := by
  simp [validate_intent, h]

/-- Claim C2 witness: the amended statement at a partially filled TRANSFER
intent. -/
theorem claim_C2_witness :
    validate_intent
      ({ operation := some "TRANSFER", amount := some 5, is_external := some true } : Intent)
      = [] :=
  claim_C2_theorem _ rfl

/-! ### Claim C3 -/

/-- Claim C3 (code bug witness): with a single SAVINGS account and a fresh
TRANSFER intent naming only destination type SAVINGS and an amount, the
destination resolves to account 1 before the source is known, the
single-account fallback then assigns the same account 1 as source, and
`process_conversation` returns a successful TRANSFER whose source and
destination ids are identical — no re-prompt occurs, contradicting the
claimed invariant (and the in-code message that a transfer to the same
account is impossible). -/
theorem claim_C3_theorem :
    (processConversation demoEnv (.text "transfer 50 to savings") none none
        (some sameTypeTransfer) none [savingsAccount]).1.success = true ∧
    ((processConversation demoEnv (.text "transfer 50 to savings") none none
        (some sameTypeTransfer) none [savingsAccount]).1.transaction_intent.bind
      Intent.source_account_id) = some 1 ∧
    ((processConversation demoEnv (.text "transfer 50 to savings") none none
        (some sameTypeTransfer) none [savingsAccount]).1.transaction_intent.bind
      Intent.destination_account_id) = some 1 := by
  decide

/-! ### Claim C4 -/

/-- Claim C4: in the check-collection sub-dialogue, after the user states 3
as the number of checks and then 100, 200, 300 as successive messages, the
successful result carries a `check_deposit_screen` step whose checks list
has exactly the amounts 100, 200, 300 in that order, and the message
reports their sum (600) as the total. -/
theorem claim_C4_theorem (env : Env) :
    (turn4 env).1.success = true ∧
    (turn4 env).1.flow_steps = some [
      ⟨"deposit_type_selection", { account_id := some 2, preselected_type := some "check" }⟩,
      ⟨"check_deposit_screen",
        { account_id := some 2, checks := some (scenarioChecks env) }⟩,
      ⟨"check_deposit_review", {}⟩,
      ⟨"check_deposit_confirmation", {}⟩] ∧
    (scenarioChecks env).map Check.amount = [100, 200, 300] ∧
    (turn4 env).1.message =
      some (.checkDepositSummary 3 (((scenarioChecks env).map Check.amount).sum)
        (some "My Checking")) ∧
    ((scenarioChecks env).map Check.amount).sum = 600 := by
  refine ⟨rfl, rfl, rfl, rfl, ?_⟩
  simp [scenarioChecks, mkCheckAt]
  norm_num

/-- Claim C4 witness: the scenario run under the concrete oracle. -/
theorem claim_C4_witness :
    (turn4 demoEnv).1.success = true ∧
    ((scenarioChecks demoEnv).map Check.amount).sum = 600 :=
  ⟨(claim_C4_theorem demoEnv).1, (claim_C4_theorem demoEnv).2.2.2.2⟩

/-! ### Claim C5 -/

/-- Claim C5: the completed collection turn returns non-empty flow steps
(four of them), the client model of the spec therefore discards the
dispatched pending intent, and a subsequent numeric message with no pending
intent is processed as a fresh top-level turn (LLM extraction), not as a
further check. -/
theorem claim_C5_theorem (env : Env) :
    ((turn4 env).1.flow_steps.getD []).length = 4 ∧
    clientPendingAfter (turn4 env).1 (turn4 env).2 = none ∧
    ∀ (q : ℚ) (lue fe : Option Intent) (fb : Option String) (accounts : List Account),
      processConversation env (.numeric q) none lue fe fb accounts =
        freshProcess env fe fb accounts :=
  ⟨rfl, rfl, fun _ _ _ _ _ => rfl⟩

/-- Claim C5 witness: the statement under the concrete oracle, with a
concrete fourth number processed as a fresh turn. -/
theorem claim_C5_witness :
    clientPendingAfter (turn4 demoEnv).1 (turn4 demoEnv).2 = none ∧
    processConversation demoEnv (.numeric 400) none none none none [checkingAccount] =
      freshProcess demoEnv none none [checkingAccount] :=
  ⟨(claim_C5_theorem demoEnv).2.1,
    (claim_C5_theorem demoEnv).2.2 400 none none none [checkingAccount]⟩

/-! ### Claim C6 -/

/-- Claim C6 counterexample: a WITHDRAW intent asking for a SAVINGS account
when only a CHECKING account exists yields a clarification turn with error
MISSING_FIELDS and empty options — not the claimed terminal
NO_MATCHING_ACCOUNTS result. -/
theorem claim_C6_counterexample :
    (processConversation demoEnv (.text "withdraw 100 from savings") none none
        (some singleSavingsWithdraw) none [checkingAccount]).1.error =
      some "MISSING_FIELDS" ∧
    (processConversation demoEnv (.text "withdraw 100 from savings") none none
        (some singleSavingsWithdraw) none [checkingAccount]).1.clarification_needed =
      some true ∧
    (processConversation demoEnv (.text "withdraw 100 from savings") none none
        (some singleSavingsWithdraw) none [checkingAccount]).1.options = some [] := by
  decide

/-- Claim C6 (amended): when zero candidate accounts match the stated type,
`process_conversation` returns an empty-options clarification turn
(clarification needed, generic which-account question, error
MISSING_FIELDS) for WITHDRAW, CASH_DEPOSIT and CHECK_DEPOSIT; the
NO_MATCHING_ACCOUNTS branches of the handlers are unreachable because
validation intercepts the missing account id first. -/
theorem claim_C6_theorem (env : Env) (m : String) (lue : Option Intent)
    (fb : Option String) (intent : Intent) (accounts : List Account)
    (hop : intent.operation = some "WITHDRAW" ∨ intent.operation = some "CASH_DEPOSIT" ∨
      intent.operation = some "CHECK_DEPOSIT")
    (hacct : intent.account_id = none)
    (hcand : filterByType accounts intent.account_type = []) :
    (processConversation env (.text m) none lue (some intent) fb accounts).1 =
      { success := false, clarification_needed := some true,
        question := some (.plain "Which account should I use?"),
        options := some [],
        missing_fields := some (validate_intent intent),
        error := some "MISSING_FIELDS" } :=
  handleIntent_missing_account_nocand env accounts intent
    (validate_mem_account_required intent hop hacct) hcand

/-- Claim C6 witness: the amended statement at the concrete zero-candidate
input. -/
theorem claim_C6_witness :
    (processConversation demoEnv (.text "withdraw 100 from savings") none none
        (some singleSavingsWithdraw) none [checkingAccount]).1 =
      { success := false, clarification_needed := some true,
        question := some (.plain "Which account should I use?"),
        options := some [],
        missing_fields := some (validate_intent singleSavingsWithdraw),
        error := some "MISSING_FIELDS" } :=
  claim_C6_theorem demoEnv "withdraw 100 from savings" none none _ _
    (Or.inl rfl) rfl (by decide)

/-! ### Claim C7 -/

/-- Claim C7: `simulate_bill_breakdown 0` is the all-zero structure, and
for every positive amount A and every outcome of the random $50 draw
(`rng n ≤ n`, the contract of `random.randint(0, n)`), the weighted sum
100·bills_100 + 50·bills_50 + 20·bills_20 + 10·bills_10 + 5·bills_5 +
bills_1 equals the floor of A, with `coins_amount` always 0. -/
theorem claim_C7_theorem (rng : Nat → Nat) (hr : ∀ n, rng n ≤ n) :
    simulate_bill_breakdown 0 rng = BillResult.zero ∧
    ∀ A : ℚ, 0 < A →
      ((simulate_bill_breakdown A rng).total : ℤ) = A.floor ∧
      (simulate_bill_breakdown A rng).coins_amount = 0 := by
  refine ⟨rfl, fun A hA => ⟨?_, simulate_coins rng A⟩⟩
  rw [simulate_total rng hr A hA]
  exact Int.toNat_of_nonneg (Rat.le_floor.mpr (by exact_mod_cast hA.le))

/-- Claim C7 witness: the invariant at amount 287/2 (floor 143) with the
maximal $50 draw. -/
theorem claim_C7_witness :
    simulate_bill_breakdown 0 (fun n => n) = BillResult.zero ∧
    ((simulate_bill_breakdown (287 / 2) (fun n => n)).total : ℤ) = ((287 : ℚ) / 2).floor ∧
    (simulate_bill_breakdown (287 / 2) (fun n => n)).coins_amount = 0 := by
  have h := claim_C7_theorem (fun n => n) (fun n => Nat.le_refl n)
  have h2 := h.2 (287 / 2) (by norm_num)
  exact ⟨h.1, h2.1, h2.2⟩

/-! ### Claim C8 -/

/-- Claim C8: with 3 attempts all failing on network errors, the retry
client sleeps backoff·2^0 and backoff·2^1 (only), then returns none; with
no extracted intent and the fallback generation also unavailable,
`process_conversation` returns the single LLM_UNAVAILABLE failure result;
and a non-network error on the first attempt is not retried (no sleeps,
the exception propagates). -/
theorem claim_C8_theorem (b : ℚ) (outcomes : Nat → AttemptOutcome)
    (hnet : ∀ k, outcomes k = .netErr) :
    retry_ollama_request 3 b outcomes = (.ok none, [b * 2 ^ 0, b * 2 ^ 1]) ∧
    (∀ (env : Env) (s : String) (lue : Option Intent) (accounts : List Account),
      processConversation env (.text s) none lue none none accounts =
        (llmUnavailableResult, none)) ∧
    ∀ outcomes2 : Nat → AttemptOutcome, outcomes2 0 = .fatalErr →
      retry_ollama_request 3 b outcomes2 = (.error (), []) := by
  refine ⟨?_, fun env s lue accounts => rfl, fun o2 h2 => ?_⟩
  · have hfun : outcomes = fun _ => AttemptOutcome.netErr := funext hnet
    rw [hfun]
    rfl
  · show retryAux b o2 3 0 = (.error (), [])
    have h3 : (3 : Nat) = 2 + 1 := rfl
    rw [h3]
    simp only [retryAux, h2]

/-- Claim C8 witness: backoff 1 second, all attempts failing. -/
theorem claim_C8_witness :
    retry_ollama_request 3 1 (fun _ => .netErr) = (.ok none, [1 * 2 ^ 0, 1 * 2 ^ 1]) ∧
    processConversation demoEnv (.text "hello") none none none none [savingsAccount] =
      (llmUnavailableResult, none) ∧
    retry_ollama_request 3 1 (fun _ => .fatalErr) = (.error (), []) := by
  have h := claim_C8_theorem 1 (fun _ => .netErr) (fun _ => rfl)
  exact ⟨h.1, h.2.1 demoEnv "hello" none [savingsAccount], h.2.2 (fun _ => .fatalErr) rfl⟩

/-! ### Claim C9 -/

/-- Claim C9: the intent parser takes the span from the first opening brace
to the last closing brace; extraction returns none whenever the opening
brace is absent, the closing brace is absent, the last closing brace does
not come after the first opening brace, or the JSON decode of the span
fails (and also when the generation response itself is missing); with no
intent extracted, `process_conversation` falls through to the open-ended
fallback result rather than raising. -/
theorem claim_C9_theorem :
    (∀ raw : List Char, '\x7b' ∉ raw → extract_json_span raw = none) ∧
    (∀ raw : List Char, '\x7d' ∉ raw → extract_json_span raw = none) ∧
    (∀ (raw : List Char) (i j : Nat), findCharIdx '\x7b' raw = some i →
      rfindCharIdx '\x7d' raw = some j → j ≤ i → extract_json_span raw = none) ∧
    (∀ (decode : List Char → Option Intent) (raw span : List Char),
      extract_json_span raw = some span → decode span = none →
      get_intent_from_llm decode (some raw) = none) ∧
    (∀ decode : List Char → Option Intent, get_intent_from_llm decode none = none) ∧
    (∀ (env : Env) (s t : String) (lue : Option Intent) (accounts : List Account),
      processConversation env (.text s) none lue none (some t) accounts =
        (fallbackSuccessResult t, none)) := by
  refine ⟨?_, ?_, ?_, ?_, fun _ => rfl, fun _ _ _ _ _ => rfl⟩
  · intro raw h
    unfold extract_json_span
    rw [findCharIdx_eq_none_of_not_mem '\x7b' raw h]
  · intro raw h
    unfold extract_json_span rfindCharIdx
    rw [findCharIdx_eq_none_of_not_mem '\x7d' raw.reverse (by simpa using h)]
    rcases findCharIdx '\x7b' raw with _ | i <;> rfl
  · intro raw i j h1 h2 h3
    unfold extract_json_span
    rw [h1, h2]
    dsimp only
    rw [if_pos h3]
  · intro decode raw span h1 h2
    unfold get_intent_from_llm
    dsimp only
    rw [h1]
    exact h2

/-- Claim C9 witness: concrete malformed responses all map to none. -/
theorem claim_C9_witness :
    extract_json_span "no opening brace".toList = none ∧
    extract_json_span "\x7d\x7b".toList = none ∧
    get_intent_from_llm (fun _ => none) (some "x\x7by\x7dz".toList) = none := by
  have h := claim_C9_theorem
  refine ⟨h.1 _ (by decide), h.2.2.1 _ 1 0 (by decide) (by decide) (by decide),
    h.2.2.2.1 (fun _ => none) _ "\x7by\x7d".toList (by decide) rfl⟩

/-! ### Claim C10 -/

/-- Claim C10: with a pending CHECK_DEPOSIT intent whose check count is not
yet set, a bare-number message whose integer value is 0 or below, or above
50, yields the INVALID_NUMBER failure with the pending intent (and its
collection state) unchanged; an integer value between 1 and 50 inclusive is
accepted as the check count and processing continues with exactly that
count recorded and an empty collected list. -/
theorem claim_C10_theorem (env : Env) (q : ℚ) (li : Intent) (lue fe : Option Intent)
    (fb : Option String) (accounts : List Account)
    (hop : li.operation = some "CHECK_DEPOSIT")
    (hnum : truthyInt (li.check_state.getD CheckState.empty).num_checks = false) :
    (truncToInt q ≤ 0 ∨ 50 < truncToInt q →
      processConversation env (.numeric q) (some li) lue fe fb accounts =
        (invalidNumberResult, some li)) ∧
    (0 < truncToInt q → truncToInt q ≤ 50 →
      processConversation env (.numeric q) (some li) lue fe fb accounts =
        ((handleIntent env accounts
            { li with check_state := some ⟨some (truncToInt q), []⟩ }).1,
          some (handleIntent env accounts
            { li with check_state := some ⟨some (truncToInt q), []⟩ }).2)) := by
  have hnum2 : ¬ truthyInt (li.check_state.getD CheckState.empty).num_checks = true := by
    rw [hnum]
    exact Bool.false_ne_true
  constructor
  · intro hrange
    simp only [processConversation]
    rw [if_pos hop, if_pos hnum2, if_pos hrange]
  · intro hpos hle
    have hrange : ¬ (truncToInt q ≤ 0 ∨ 50 < truncToInt q) := by omega
    simp only [processConversation]
    rw [if_pos hop, if_pos hnum2, if_neg hrange]

/-- Claim C10 witness: the count 51 is rejected with the pending intent
unchanged; the count 3 is accepted and recorded. -/
theorem claim_C10_witness :
    (processConversation demoEnv (.numeric 51) (some checkScenarioStart) none none none
        [checkingAccount] = (invalidNumberResult, some checkScenarioStart)) ∧
    (processConversation demoEnv (.numeric 3) (some checkScenarioStart) none none none
        [checkingAccount] =
      ((handleIntent demoEnv [checkingAccount]
          { checkScenarioStart with check_state := some ⟨some (truncToInt 3), []⟩ }).1,
        some (handleIntent demoEnv [checkingAccount]
          { checkScenarioStart with check_state := some ⟨some (truncToInt 3), []⟩ }).2)) := by
  have h := claim_C10_theorem demoEnv 51 checkScenarioStart none none none
    [checkingAccount] rfl rfl
  have h2 := claim_C10_theorem demoEnv 3 checkScenarioStart none none none
    [checkingAccount] rfl rfl
  exact ⟨h.1 (by decide), h2.2 (by decide) (by decide)⟩

end ConvBank
